import Mathlib

set_option autoImplicit false

namespace Libusbpy

/-!
Shallow embedding of the libusbpy wrapper (src/libusbpy: descriptors.py,
defines.py, exceptions.py, device.py, context.py).

The libusb C collaborator hands the wrapper already-parsed descriptor
structures; those C structs are modelled as Lean records whose array-valued
fields are lists together with the count fields the C structs carry.
ctypes pointer indexing performs no bounds check, so reading past the end
of an array is modelled by a junk default value standing for whatever
memory happens to follow; no theorem about well-formed inputs depends on
the junk content.  Python functions that may raise return
`Except PyError`.
-/

/-- Opaque host-controller device reference (a C `libusb_device *`),
modelled by an id. -/
abbrev device := Nat

/-- The junk id read when a device array is indexed out of bounds. -/
def junkDevice : device := 0

/-- libusb C struct `libusb_device_descriptor`, as the collaborator fills it. -/
structure device_descriptor where
  bLength : Nat
  bDescriptorType : Nat
  bcdUSB : Nat
  bDeviceClass : Nat
  bDeviceSubClass : Nat
  bDeviceProtocol : Nat
  bMaxPacketSize0 : Nat
  idVendor : Nat
  idProduct : Nat
  bcdDevice : Nat
  iManufacturer : Nat
  iProduct : Nat
  iSerialNumber : Nat
  bNumConfigurations : Nat
deriving DecidableEq

/-- libusb C struct `libusb_ss_endpoint_companion_descriptor`. -/
structure ss_endpoint_companion_descriptor where
  bLength : Nat
  bDescriptorType : Nat
  bMaxBurst : Nat
  bmAttributes : Nat
  wBytesPerInterval : Nat
deriving DecidableEq

/-- libusb C struct `libusb_endpoint_descriptor`.  `extra` is the memory the
C `extra` byte pointer designates and `extra_length` the count field next to
it; the Python slice `extra[0:extra_length]` is modelled by `List.take`. -/
structure endpoint_descriptor where
  bLength : Nat
  bDescriptorType : Nat
  bEndpointAddress : Nat
  bmAttributes : Nat
  wMaxPacketSize : Nat
  bInterval : Nat
  bRefresh : Nat
  bSynchAddress : Nat
  extra : List Nat
  extra_length : Nat
deriving DecidableEq

/-- libusb C struct `libusb_interface_descriptor`.  `endpoint` is the memory
the C endpoint-array pointer designates; `bNumEndpoints` is the count the
wrapper trusts. -/
structure interface_descriptor where
  bLength : Nat
  bDescriptorType : Nat
  bInterfaceNumber : Nat
  bAlternateSetting : Nat
  bNumEndpoints : Nat
  bInterfaceClass : Nat
  bInterfaceSubClass : Nat
  bInterfaceProtocol : Nat
  iInterface : Nat
  endpoint : List endpoint_descriptor
  extra : List Nat
  extra_length : Nat
deriving DecidableEq

/-- libusb C struct `libusb_interface`: an altsetting array pointer plus the
C `int num_altsetting`. -/
structure libusb_interface where
  altsetting : List interface_descriptor
  num_altsetting : Int
deriving DecidableEq

/-- libusb C struct `libusb_config_descriptor`. -/
structure config_descriptor where
  bLength : Nat
  bDescriptorType : Nat
  wTotalLength : Nat
  bNumInterfaces : Nat
  bConfigurationValue : Nat
  iConfiguration : Nat
  bmAttributes : Nat
  MaxPower : Nat
  interface : List libusb_interface
  extra : List Nat
  extra_length : Nat
deriving DecidableEq

/-- Junk endpoint struct read past the end of an endpoint array. -/
def junkEndpoint : endpoint_descriptor :=
  { bLength := 0, bDescriptorType := 0, bEndpointAddress := 0, bmAttributes := 0,
    wMaxPacketSize := 0, bInterval := 0, bRefresh := 0, bSynchAddress := 0,
    extra := [], extra_length := 0 }

/-- Junk interface-descriptor struct read past the end of an altsetting array. -/
def junkInterfaceDesc : interface_descriptor :=
  { bLength := 0, bDescriptorType := 0, bInterfaceNumber := 0, bAlternateSetting := 0,
    bNumEndpoints := 0, bInterfaceClass := 0, bInterfaceSubClass := 0,
    bInterfaceProtocol := 0, iInterface := 0, endpoint := [], extra := [], extra_length := 0 }

/-- Junk interface struct read past the end of the config interface array. -/
def junkInterface : libusb_interface :=
  { altsetting := [], num_altsetting := 0 }

deriving instance DecidableEq for Except

/-- Exceptions the Python code can raise.  `libusbError` is
`LibusbException(code)` from exceptions.py (carrying the status code the
host controller returned); the rest are built-in Python exceptions. -/
inductive PyError where
  | libusbError (code : Int)
  | valueError
  | typeError
  | attributeError
  | stopIteration
  | indexError
deriving DecidableEq

/-- defines.py: `LIBUSB_SUCCESS` as re-exported by the libusb package. -/
def LIBUSB_SUCCESS : Int := 0

/-- defines.py: the `LibusbDeviceSpeed` enum members (values are the
`LIBUSB_SPEED_*` constants 0..5). -/
inductive LibusbDeviceSpeed where
  | UNKNOWN
  | LOW
  | FULL
  | HIGH
  | SUPER
  | SUPER_PLUS
deriving DecidableEq

/-- Python `LibusbDeviceSpeed(value)`: the `Enum` constructor looks the
numeric value up among the members and raises `ValueError` when no member
has that value. -/
def LibusbDeviceSpeed.ofCode (value : Int) : Except PyError LibusbDeviceSpeed :=
  if value = 0 then Except.ok LibusbDeviceSpeed.UNKNOWN
  else if value = 1 then Except.ok LibusbDeviceSpeed.LOW
  else if value = 2 then Except.ok LibusbDeviceSpeed.FULL
  else if value = 3 then Except.ok LibusbDeviceSpeed.HIGH
  else if value = 4 then Except.ok LibusbDeviceSpeed.SUPER
  else if value = 5 then Except.ok LibusbDeviceSpeed.SUPER_PLUS
  else Except.error PyError.valueError

/-- exceptions.py `LibusbException.__init__`: the message built from the
status code (the `LIBUSB_ERROR_*` constants are -1..-12; anything else
falls through to the final branch). -/
def LibusbException.message (error : Int) : String :=
  if error = -1 then "(" ++ toString error ++ ") IO Error"
  else if error = -2 then "(" ++ toString error ++ ") Invalid parameter"
  else if error = -3 then "(" ++ toString error ++ ") Access denied (insufficient permissions)"
  else if error = -4 then "(" ++ toString error ++ ") No such device (it may have been disconnected)"
  else if error = -5 then "(" ++ toString error ++ ") Entity not found"
  else if error = -6 then "(" ++ toString error ++ ") Resource busy"
  else if error = -7 then "(" ++ toString error ++ ") Operation timed out"
  else if error = -8 then "(" ++ toString error ++ ") Overflow"
  else if error = -9 then "(" ++ toString error ++ ") Pipe error"
  else if error = -10 then "(" ++ toString error ++ ") System call interrupted (perhaps due to signal)"
  else if error = -11 then "(" ++ toString error ++ ") Insufficient memory"
  else if error = -12 then "(" ++ toString error ++ ") Operation not supported or unimplemented on this platform"
  else "(" ++ toString error ++ ") Other error"

/-- descriptors.py `LibusbSsEndpointCompanionDescriptor`: the attributes its
`__init__` (via `LibusbDescriptor.__init__`) stores on the object. -/
structure LibusbSsEndpointCompanionDescriptor where
  _descriptor : ss_endpoint_companion_descriptor
  _bLength : Nat
  _bDescriptorType : Nat
  _bMaxBurst : Nat
  _bmAttributes : Nat
  _wBytesPerInterval : Nat
deriving DecidableEq

/-- descriptors.py `LibusbEndpointDescriptor`: the attributes its `__init__`
stores.  The source stores exactly the eight fixed fields plus `_extra`;
there is no companion attribute of any kind. -/
structure LibusbEndpointDescriptor where
  _descriptor : endpoint_descriptor
  _bLength : Nat
  _bDescriptorType : Nat
  _bEndpointAddress : Nat
  _bmAttributes : Nat
  _wMaxPacketSize : Nat
  _bInterval : Nat
  _bRefresh : Nat
  _bSynchAddress : Nat
  _extra : List Nat
deriving DecidableEq

/-- descriptors.py `LibusbInterfaceDescriptor`: the attributes its
`__init__` stores. -/
structure LibusbInterfaceDescriptor where
  _descriptor : interface_descriptor
  _bLength : Nat
  _bDescriptorType : Nat
  _bInterfaceNumber : Nat
  _bAlternateSetting : Nat
  _bNumEndpoints : Nat
  _bInterfaceClass : Nat
  _bInterfaceSubClass : Nat
  _bInterfaceProtocol : Nat
  _iInterface : Nat
  _endpoint : List LibusbEndpointDescriptor
  _extra : List Nat
deriving DecidableEq

/-- descriptors.py `LibusbInterface`: holds only the `_altsetting` tuple. -/
structure LibusbInterface where
  _altsetting : List LibusbInterfaceDescriptor
deriving DecidableEq

/-- descriptors.py `LibusbConfigurationDescriptor`: the attributes its
`__init__` stores. -/
structure LibusbConfigurationDescriptor where
  _descriptor : config_descriptor
  _bLength : Nat
  _bDescriptorType : Nat
  _wTotalLength : Nat
  _bNumInterfaces : Nat
  _bConfigurationValue : Nat
  _iConfiguration : Nat
  _bmAttributes : Nat
  _MaxPower : Nat
  _interface : List LibusbInterface
  _extra : List Nat
deriving DecidableEq

/-- descriptors.py `LibusbDeviceDescriptor`: the attributes its `__init__`
stores. -/
structure LibusbDeviceDescriptor where
  _descriptor : device_descriptor
  _bLength : Nat
  _bDescriptorType : Nat
  _bcdUSB : Nat
  _bDeviceClass : Nat
  _bDeviceSubClass : Nat
  _bDeviceProtocol : Nat
  _bMaxPacketSize0 : Nat
  _idVendor : Nat
  _idProduct : Nat
  _bcdDevice : Nat
  _iManufacturer : Nat
  _iProduct : Nat
  _iSerialNumber : Nat
  _bNumConfigurations : Nat
deriving DecidableEq

/-- descriptors.py `LibusbDeviceDescriptor.__init__` over a pointer to a
filled `device_descriptor` (every field is `descriptor[0].field`). -/
def LibusbDeviceDescriptor.build (d : device_descriptor) : LibusbDeviceDescriptor :=
  { _descriptor := d, _bLength := d.bLength, _bDescriptorType := d.bDescriptorType,
    _bcdUSB := d.bcdUSB, _bDeviceClass := d.bDeviceClass,
    _bDeviceSubClass := d.bDeviceSubClass, _bDeviceProtocol := d.bDeviceProtocol,
    _bMaxPacketSize0 := d.bMaxPacketSize0, _idVendor := d.idVendor,
    _idProduct := d.idProduct, _bcdDevice := d.bcdDevice,
    _iManufacturer := d.iManufacturer, _iProduct := d.iProduct,
    _iSerialNumber := d.iSerialNumber, _bNumConfigurations := d.bNumConfigurations }

/-- descriptors.py `LibusbSsEndpointCompanionDescriptor.__init__`. -/
def LibusbSsEndpointCompanionDescriptor.build (d : ss_endpoint_companion_descriptor) :
    LibusbSsEndpointCompanionDescriptor :=
  { _descriptor := d, _bLength := d.bLength, _bDescriptorType := d.bDescriptorType,
    _bMaxBurst := d.bMaxBurst, _bmAttributes := d.bmAttributes,
    _wBytesPerInterval := d.wBytesPerInterval }

/-- descriptors.py `LibusbEndpointDescriptor.__init__`:
`self._extra = bytes(descriptor[0].extra[0:descriptor[0].extra_length])`. -/
def LibusbEndpointDescriptor.build (d : endpoint_descriptor) : LibusbEndpointDescriptor :=
  { _descriptor := d, _bLength := d.bLength, _bDescriptorType := d.bDescriptorType,
    _bEndpointAddress := d.bEndpointAddress, _bmAttributes := d.bmAttributes,
    _wMaxPacketSize := d.wMaxPacketSize, _bInterval := d.bInterval,
    _bRefresh := d.bRefresh, _bSynchAddress := d.bSynchAddress,
    _extra := d.extra.take d.extra_length }

/-- descriptors.py `LibusbEndpointDescriptor` holds no companion attribute
(its `__init__` stores exactly `_descriptor`, the eight fixed fields and
`_extra`), so the collection of SuperSpeed companion records attached to a
built endpoint is empty for every endpoint. -/
def LibusbEndpointDescriptor.companions (_ : LibusbEndpointDescriptor) :
    List LibusbSsEndpointCompanionDescriptor := []

/-- descriptors.py `LibusbInterfaceDescriptor.__init__`: the endpoint tuple
iterates `range(0, descriptor[0].bNumEndpoints)` over the C endpoint array
(ctypes indexing, no bounds check). -/
def LibusbInterfaceDescriptor.build (d : interface_descriptor) : LibusbInterfaceDescriptor :=
  { _descriptor := d, _bLength := d.bLength, _bDescriptorType := d.bDescriptorType,
    _bInterfaceNumber := d.bInterfaceNumber, _bAlternateSetting := d.bAlternateSetting,
    _bNumEndpoints := d.bNumEndpoints, _bInterfaceClass := d.bInterfaceClass,
    _bInterfaceSubClass := d.bInterfaceSubClass, _bInterfaceProtocol := d.bInterfaceProtocol,
    _iInterface := d.iInterface,
    _endpoint := (List.range d.bNumEndpoints).map
      (fun index => LibusbEndpointDescriptor.build (d.endpoint.getD index junkEndpoint)),
    _extra := d.extra.take d.extra_length }

/-- descriptors.py `LibusbInterface.__init__`: the altsetting tuple iterates
`range(0, interface.num_altsetting)`. -/
def LibusbInterface.build (itf : libusb_interface) : LibusbInterface :=
  { _altsetting := (List.range itf.num_altsetting.toNat).map
      (fun index => LibusbInterfaceDescriptor.build (itf.altsetting.getD index junkInterfaceDesc)) }

/-- descriptors.py `LibusbConfigurationDescriptor.__init__`: the interface
tuple iterates `range(0, self._bNumInterfaces)`. -/
def LibusbConfigurationDescriptor.build (d : config_descriptor) : LibusbConfigurationDescriptor :=
  { _descriptor := d, _bLength := d.bLength, _bDescriptorType := d.bDescriptorType,
    _wTotalLength := d.wTotalLength, _bNumInterfaces := d.bNumInterfaces,
    _bConfigurationValue := d.bConfigurationValue, _iConfiguration := d.iConfiguration,
    _bmAttributes := d.bmAttributes, _MaxPower := d.MaxPower,
    _interface := (List.range d.bNumInterfaces).map
      (fun index => LibusbInterface.build (d.interface.getD index junkInterface)),
    _extra := d.extra.take d.extra_length }

/-- The ctypes value handed to `LibusbConfigurationDescriptor`:
`ptr` is a `POINTER(libusb.config_descriptor)` designating a filled struct
(as `get_active_config_descriptor` passes `c_config`); `val` is the
dereferenced `libusb.config_descriptor` Structure itself (as
`get_config_descriptor` passes `c_config[0]`). -/
inductive ConfigArg where
  | ptr (s : config_descriptor)
  | val (s : config_descriptor)
deriving DecidableEq

/-- descriptors.py `LibusbConfigurationDescriptor(descriptor)`: with a
pointer, `descriptor[0]` dereferences and the fields are copied; with a
dereferenced Structure, the very first access `descriptor[0].bLength` in
`LibusbDescriptor.__init__` raises `TypeError` (a ctypes Structure is not
subscriptable). -/
def LibusbConfigurationDescriptor.init :
    ConfigArg → Except PyError LibusbConfigurationDescriptor
  | ConfigArg.ptr s => Except.ok (LibusbConfigurationDescriptor.build s)
  | ConfigArg.val _ => Except.error PyError.typeError

/-- The values a Python attribute lookup on a descriptor object can
produce: ints, the `bytes` extra run, the endpoint and interface tuples,
the stored `_descriptor` ctypes reference of each class, and — when the
name misses the instance dictionary but resolves at class level — the
class-level object (the class itself, a bound method, the instance
dictionary proxy, ...), kept opaque and tagged with the resolved name. -/
inductive PyValue where
  | int (n : Nat)
  | bytes (b : List Nat)
  | endpoints (l : List LibusbEndpointDescriptor)
  | interfaces (l : List LibusbInterface)
  | devDescRef (d : device_descriptor)
  | ssDescRef (d : ss_endpoint_companion_descriptor)
  | epDescRef (d : endpoint_descriptor)
  | itfDescRef (d : interface_descriptor)
  | cfgDescRef (d : config_descriptor)
  | classAttr (name : String)
deriving DecidableEq

/-- The attribute dictionary of a built `LibusbDeviceDescriptor`, in the
order `__init__` assigns (`LibusbDescriptor.__init__` first). -/
def LibusbDeviceDescriptor.attrs (x : LibusbDeviceDescriptor) : List (String × PyValue) :=
  [("_descriptor", PyValue.devDescRef x._descriptor),
   ("_bLength", PyValue.int x._bLength),
   ("_bDescriptorType", PyValue.int x._bDescriptorType),
   ("_bcdUSB", PyValue.int x._bcdUSB),
   ("_bDeviceClass", PyValue.int x._bDeviceClass),
   ("_bDeviceSubClass", PyValue.int x._bDeviceSubClass),
   ("_bDeviceProtocol", PyValue.int x._bDeviceProtocol),
   ("_bMaxPacketSize0", PyValue.int x._bMaxPacketSize0),
   ("_idVendor", PyValue.int x._idVendor),
   ("_idProduct", PyValue.int x._idProduct),
   ("_bcdDevice", PyValue.int x._bcdDevice),
   ("_iManufacturer", PyValue.int x._iManufacturer),
   ("_iProduct", PyValue.int x._iProduct),
   ("_iSerialNumber", PyValue.int x._iSerialNumber),
   ("_bNumConfigurations", PyValue.int x._bNumConfigurations)]

/-- The attribute dictionary of a built `LibusbSsEndpointCompanionDescriptor`. -/
def LibusbSsEndpointCompanionDescriptor.attrs (x : LibusbSsEndpointCompanionDescriptor) :
    List (String × PyValue) :=
  [("_descriptor", PyValue.ssDescRef x._descriptor),
   ("_bLength", PyValue.int x._bLength),
   ("_bDescriptorType", PyValue.int x._bDescriptorType),
   ("_bMaxBurst", PyValue.int x._bMaxBurst),
   ("_bmAttributes", PyValue.int x._bmAttributes),
   ("_wBytesPerInterval", PyValue.int x._wBytesPerInterval)]

/-- The attribute dictionary of a built `LibusbEndpointDescriptor`. -/
def LibusbEndpointDescriptor.attrs (x : LibusbEndpointDescriptor) : List (String × PyValue) :=
  [("_descriptor", PyValue.epDescRef x._descriptor),
   ("_bLength", PyValue.int x._bLength),
   ("_bDescriptorType", PyValue.int x._bDescriptorType),
   ("_bEndpointAddress", PyValue.int x._bEndpointAddress),
   ("_bmAttributes", PyValue.int x._bmAttributes),
   ("_wMaxPacketSize", PyValue.int x._wMaxPacketSize),
   ("_bInterval", PyValue.int x._bInterval),
   ("_bRefresh", PyValue.int x._bRefresh),
   ("_bSynchAddress", PyValue.int x._bSynchAddress),
   ("_extra", PyValue.bytes x._extra)]

/-- The attribute dictionary of a built `LibusbInterfaceDescriptor`. -/
def LibusbInterfaceDescriptor.attrs (x : LibusbInterfaceDescriptor) : List (String × PyValue) :=
  [("_descriptor", PyValue.itfDescRef x._descriptor),
   ("_bLength", PyValue.int x._bLength),
   ("_bDescriptorType", PyValue.int x._bDescriptorType),
   ("_bInterfaceNumber", PyValue.int x._bInterfaceNumber),
   ("_bAlternateSetting", PyValue.int x._bAlternateSetting),
   ("_bNumEndpoints", PyValue.int x._bNumEndpoints),
   ("_bInterfaceClass", PyValue.int x._bInterfaceClass),
   ("_bInterfaceSubClass", PyValue.int x._bInterfaceSubClass),
   ("_bInterfaceProtocol", PyValue.int x._bInterfaceProtocol),
   ("_iInterface", PyValue.int x._iInterface),
   ("_endpoint", PyValue.endpoints x._endpoint),
   ("_extra", PyValue.bytes x._extra)]

/-- The attribute dictionary of a built `LibusbConfigurationDescriptor`. -/
def LibusbConfigurationDescriptor.attrs (x : LibusbConfigurationDescriptor) :
    List (String × PyValue) :=
  [("_descriptor", PyValue.cfgDescRef x._descriptor),
   ("_bLength", PyValue.int x._bLength),
   ("_bDescriptorType", PyValue.int x._bDescriptorType),
   ("_wTotalLength", PyValue.int x._wTotalLength),
   ("_bNumInterfaces", PyValue.int x._bNumInterfaces),
   ("_bConfigurationValue", PyValue.int x._bConfigurationValue),
   ("_iConfiguration", PyValue.int x._iConfiguration),
   ("_bmAttributes", PyValue.int x._bmAttributes),
   ("_MaxPower", PyValue.int x._MaxPower),
   ("_interface", PyValue.interfaces x._interface),
   ("_extra", PyValue.bytes x._extra)]

/-- Python `getattr(self, name)`: the name is looked up in the instance
attribute dictionary, and a name that misses it but is an attribute of
the class (a method such as `__str__`, or an attribute every object
carries such as `__class__` or `__dict__`) resolves to that class-level
object; only a name found in neither place raises `AttributeError`.  The
set of class-level names is Python-version dependent, so it is a
parameter `classAttrs`; the stored instance attributes of these classes
never collide with class-level names, so the lookup order between the two
does not matter here. -/
def pygetattr (dict : List (String × PyValue)) (classAttrs : List String)
    (name : String) : Except PyError PyValue :=
  match dict.lookup name with
  | some v => Except.ok v
  | none =>
    if name ∈ classAttrs then Except.ok (PyValue.classAttr name)
    else Except.error PyError.attributeError

/-- descriptors.py `LibusbDescriptor.__getitem__`:
`return getattr(self, "_" + field)`. -/
def LibusbDescriptor.getitem (dict : List (String × PyValue)) (classAttrs : List String)
    (field : String) : Except PyError PyValue :=
  pygetattr dict classAttrs ("_" ++ field)

/-- The field names a `LibusbDeviceDescriptor` instance declares for
`__getitem__` (its attributes without the underscore). -/
def deviceDescriptorFields : List String :=
  ["descriptor", "bLength", "bDescriptorType", "bcdUSB", "bDeviceClass",
   "bDeviceSubClass", "bDeviceProtocol", "bMaxPacketSize0", "idVendor",
   "idProduct", "bcdDevice", "iManufacturer", "iProduct", "iSerialNumber",
   "bNumConfigurations"]

/-- The field names a `LibusbSsEndpointCompanionDescriptor` declares. -/
def ssCompanionFields : List String :=
  ["descriptor", "bLength", "bDescriptorType", "bMaxBurst", "bmAttributes",
   "wBytesPerInterval"]

/-- The field names a `LibusbEndpointDescriptor` declares. -/
def endpointFields : List String :=
  ["descriptor", "bLength", "bDescriptorType", "bEndpointAddress",
   "bmAttributes", "wMaxPacketSize", "bInterval", "bRefresh",
   "bSynchAddress", "extra"]

/-- The field names a `LibusbInterfaceDescriptor` declares. -/
def interfaceDescriptorFields : List String :=
  ["descriptor", "bLength", "bDescriptorType", "bInterfaceNumber",
   "bAlternateSetting", "bNumEndpoints", "bInterfaceClass",
   "bInterfaceSubClass", "bInterfaceProtocol", "iInterface", "endpoint",
   "extra"]

/-- The field names a `LibusbConfigurationDescriptor` declares. -/
def configurationFields : List String :=
  ["descriptor", "bLength", "bDescriptorType", "wTotalLength",
   "bNumInterfaces", "bConfigurationValue", "iConfiguration",
   "bmAttributes", "MaxPower", "interface", "extra"]

/-- Class-level attribute names that `getattr` resolves on every
descriptor instance in CPython: the methods the descriptor classes define
(`__init__`, `__getitem__`, `__str__`) and attributes every object
carries (`__class__`, `__dict__`, `__doc__`, `__module__`,
`__weakref__`).  The full class-level set is Python-version dependent;
this list is the documented subset, and the theorems are parametrised
over the set. -/
def knownClassAttrs : List String :=
  ["__class__", "__dict__", "__doc__", "__module__", "__weakref__",
   "__init__", "__getitem__", "__str__"]

/-- The calls to the host-controller collaborator (the libusb C API) that
the lifetime-relevant wrapper methods issue, in order. -/
inductive HostCall where
  | refDevice (d : device)
  | unrefDevice (d : device)
  | freeDeviceList (arr : List device) (unref : Int)
deriving DecidableEq

/-- device.py `LibusbDevice`: holds the underlying device reference. -/
structure LibusbDevice where
  _device : device
deriving DecidableEq

/-- The junk handle read when a device array is indexed out of bounds. -/
def junkLibusbDevice : LibusbDevice := { _device := junkDevice }

/-- device.py `LibusbDevice.__init__`: stores the reference and issues no
host-controller call (in particular, no reference-count increment). -/
def LibusbDevice.init (d : device) : LibusbDevice × List HostCall :=
  ({ _device := d }, [])

/-- device.py `LibusbDevice.ref_device`: one `libusb_ref_device` call. -/
def LibusbDevice.ref_device (self : LibusbDevice) : List HostCall :=
  [HostCall.refDevice self._device]

/-- device.py `LibusbDevice.unref_device`: one `libusb_unref_device` call. -/
def LibusbDevice.unref_device (self : LibusbDevice) : List HostCall :=
  [HostCall.unrefDevice self._device]

/-- device.py `LibusbDevice.__del__`: calls `self.unref_device()`. -/
def LibusbDevice.del (self : LibusbDevice) : List HostCall :=
  self.unref_device

/-- device.py `LibusbDevice.get_device_speed`:
`LibusbDeviceSpeed(libusb.get_device_speed(self._device))`, parametrised by
the numeric code the host controller returned. -/
def LibusbDevice.get_device_speed (code : Int) : Except PyError LibusbDeviceSpeed :=
  LibusbDeviceSpeed.ofCode code

/-- device.py `LibusbDevice.get_max_packet_size`, parametrised by the value
`ret` the host-controller call returned: the wrapper returns `int(ret)`
only when `ret == libusb.LIBUSB_SUCCESS` and raises `LibusbException(ret)`
otherwise. -/
def LibusbDevice.get_max_packet_size (ret : Int) : Except PyError Int :=
  if ret = LIBUSB_SUCCESS then Except.ok ret
  else Except.error (PyError.libusbError ret)

/-- device.py `LibusbDevice.get_max_iso_packet_size`: same logic as
`get_max_packet_size`. -/
def LibusbDevice.get_max_iso_packet_size (ret : Int) : Except PyError Int :=
  if ret = LIBUSB_SUCCESS then Except.ok ret
  else Except.error (PyError.libusbError ret)

/-- device.py `LibusbDevice.get_active_config_descriptor`, parametrised by
the status `ret` of `libusb_get_active_config_descriptor` and the struct
`c_config` it filled: on success the wrapper passes the pointer
(`c_config`) on to `LibusbConfigurationDescriptor`. -/
def LibusbDevice.get_active_config_descriptor (ret : Int) (c_config : config_descriptor) :
    Except PyError LibusbConfigurationDescriptor :=
  if ret ≠ LIBUSB_SUCCESS then Except.error (PyError.libusbError ret)
  else LibusbConfigurationDescriptor.init (ConfigArg.ptr c_config)

/-- device.py `LibusbDevice.get_config_descriptor`, parametrised the same
way: on success the wrapper passes the dereferenced struct
(`c_config[0]`) on to `LibusbConfigurationDescriptor`. -/
def LibusbDevice.get_config_descriptor (ret : Int) (c_config : config_descriptor) :
    Except PyError LibusbConfigurationDescriptor :=
  if ret ≠ LIBUSB_SUCCESS then Except.error (PyError.libusbError ret)
  else LibusbConfigurationDescriptor.init (ConfigArg.val c_config)

/-- device.py `LibusbDeviceList.DeviceListIterator`: holds the list, its
length at construction time, and the running index. -/
structure DeviceListIterator where
  _device_list : List LibusbDevice
  _len : Nat
  _index : Nat
deriving DecidableEq

/-- device.py `DeviceListIterator.__init__`. -/
def DeviceListIterator.init (device_list : List LibusbDevice) : DeviceListIterator :=
  { _device_list := device_list, _len := device_list.length, _index := 0 }

/-- device.py `DeviceListIterator.__next__`: returns the element at the
running index and advances, or raises `StopIteration` at the end. -/
def DeviceListIterator.next (self : DeviceListIterator) :
    Except PyError (LibusbDevice × DeviceListIterator) :=
  if self._index < self._len then
    Except.ok (self._device_list.getD self._index junkLibusbDevice,
      { self with _index := self._index + 1 })
  else Except.error PyError.stopIteration

/-- Drives a `DeviceListIterator` the way a Python `for` loop does,
collecting the yielded devices; the boolean records whether `StopIteration`
was reached within the given fuel. -/
def DeviceListIterator.collect (self : DeviceListIterator) : Nat → List LibusbDevice × Bool
  | 0 => ([], false)
  | fuel + 1 =>
    match self.next with
    | Except.error _ => ([], true)
    | Except.ok (d, it2) =>
      let rest := it2.collect fuel
      (d :: rest.fst, rest.snd)

/-- device.py `LibusbDeviceList`: the C array reference, the count passed
in, and the snapshot of `LibusbDevice` objects built at construction. -/
structure LibusbDeviceList where
  _devices : List device
  _device_nbr : Int
  _list : List LibusbDevice
deriving DecidableEq

/-- device.py `LibusbDeviceList.__init__`:
`self._list = [LibusbDevice(self._devices[index]) for index in range(0, self._device_nbr)]`
(a negative count gives an empty range).  The second component collects the
host-controller calls the construction issues. -/
def LibusbDeviceList.init (devices : List device) (device_nbr : Int) :
    LibusbDeviceList × List HostCall :=
  let objs := (List.range device_nbr.toNat).map
    (fun index => LibusbDevice.init (devices.getD index junkDevice))
  ({ _devices := devices, _device_nbr := device_nbr, _list := objs.map Prod.fst },
    (objs.map Prod.snd).flatten)

/-- device.py `LibusbDeviceList.__del__`:
`libusb.free_device_list(self._devices, 0)` — one call, unref flag 0. -/
def LibusbDeviceList.del (self : LibusbDeviceList) : List HostCall :=
  [HostCall.freeDeviceList self._devices 0]

/-- device.py `LibusbDeviceList.__iter__`:
`return LibusbDeviceList.DeviceListIterator(self._list)`. -/
def LibusbDeviceList.iter (self : LibusbDeviceList) : DeviceListIterator :=
  DeviceListIterator.init self._list

/-- device.py `LibusbDeviceList.__getitem__`: `return self._list[index]`,
with Python list indexing semantics (negative indexes count from the end;
out-of-range indexes raise `IndexError`). -/
def LibusbDeviceList.getitem (self : LibusbDeviceList) (index : Int) :
    Except PyError LibusbDevice :=
  let n : Int := self._list.length
  if 0 ≤ index ∧ index < n then
    Except.ok (self._list.getD index.toNat junkLibusbDevice)
  else if -n ≤ index ∧ index < 0 then
    Except.ok (self._list.getD (index + n).toNat junkLibusbDevice)
  else Except.error PyError.indexError

/-- device.py `LibusbDeviceList.__len__`: `return self._device_nbr`. -/
def LibusbDeviceList.len (self : LibusbDeviceList) : Int :=
  self._device_nbr

/-- context.py `LibusbContext.get_device_list`, parametrised by the array
and the value `devices_nbr` that `libusb_get_device_list` returned (the
device count on success, a negative error code on failure): the wrapper
performs no status check and always returns the constructed list. -/
def LibusbContext.get_device_list (devices : List device) (devices_nbr : Int) :
    Except PyError LibusbDeviceList :=
  Except.ok (LibusbDeviceList.init devices devices_nbr).fst

/-! Helper lemmas. -/

/-- Prepending the underscore is injective on field names. -/
theorem underscore_inj (s t : String) (h : "_" ++ s = "_" ++ t) : s = t := by
  have h2 : ("_" ++ s).data = ("_" ++ t).data := by rw [h]
  simp [String.data_append] at h2
  exact String.ext h2

/-- Looking an underscored name up in an attribute dictionary whose keys
are exactly the underscored declared field names fails when the bare name
is not declared. -/
theorem lookup_underscored_none {β : Type} (f : String) :
    ∀ (l : List (String × β)) (keys : List String),
      l.map Prod.fst = keys.map (fun k => "_" ++ k) → f ∉ keys →
      l.lookup ("_" ++ f) = none := by
  intro l
  induction l with
  | nil => intro keys _ _; rfl
  | cons p t ih =>
    intro keys hk hf
    cases keys with
    | nil => simp at hk
    | cons k ks =>
      simp only [List.map_cons, List.cons.injEq] at hk
      obtain ⟨h1, h2⟩ := hk
      rw [List.mem_cons, not_or] at hf
      have hne : ("_" ++ f == p.1) = false := by
        rw [h1]
        refine beq_eq_false_iff_ne.mpr ?_
        intro he
        exact hf.1 (underscore_inj f k he)
      simp only [List.lookup, hne]
      exact ih ks h2 hf.2

/-- A comprehension `[f(arr[i]) for i in range(n)]` over an array that
actually holds `n` elements is the elementwise map over the array. -/
theorem range_getD_map {α β : Type} (f : α → β) (junk : α) (l : List α) (n : Nat)
    (h : l.length = n) :
    (List.range n).map (fun i => f (l.getD i junk)) = l.map f := by
  subst h
  apply List.ext_getElem
  · simp
  · intro i h1 h2
    simp only [List.getElem_map, List.getElem_range]
    rw [List.getD_eq_getElem?_getD, List.getElem?_eq_getElem (by simpa using h2)]
    rfl

/-! Concrete inputs used by counterexamples and witnesses. -/

/-- A minimal alternate-setting struct: nine-byte interface descriptor with
no endpoints and no extra bytes. -/
def minimalAlt : interface_descriptor :=
  { bLength := 9, bDescriptorType := 4, bInterfaceNumber := 0, bAlternateSetting := 0,
    bNumEndpoints := 0, bInterfaceClass := 255, bInterfaceSubClass := 0,
    bInterfaceProtocol := 0, iInterface := 0, endpoint := [], extra := [],
    extra_length := 0 }

/-- A minimal interface struct: one alternate setting. -/
def minimalItf : libusb_interface :=
  { altsetting := [minimalAlt], num_altsetting := 1 }

/-- A minimal filled config struct: one interface, one alternate setting,
no endpoints, no extra bytes (the end-to-end example layout). -/
def minimalCfg : config_descriptor :=
  { bLength := 9, bDescriptorType := 2, wTotalLength := 18, bNumInterfaces := 1,
    bConfigurationValue := 1, iConfiguration := 0, bmAttributes := 128, MaxPower := 50,
    interface := [minimalItf], extra := [], extra_length := 0 }

/-! ### C1 -/

/-- Claim C1 (code_bug evaluation): `get_max_packet_size` and
`get_max_iso_packet_size` return only when the host-controller call
returned exactly the success sentinel 0, and raise `LibusbException(ret)`
for every other value — including a legitimate positive packet size such
as 8, which the claim (and the method docstrings, which promise the
`wMaxPacketSize` value back) says must be returned.  Negative statuses do
raise as the claim says. -/
theorem C1_eval :
    LibusbDevice.get_max_packet_size 8 = Except.error (PyError.libusbError 8)
    ∧ LibusbDevice.get_max_iso_packet_size 8 = Except.error (PyError.libusbError 8)
    ∧ LibusbDevice.get_max_packet_size 0 = Except.ok 0
    ∧ LibusbDevice.get_max_iso_packet_size 0 = Except.ok 0
    ∧ LibusbDevice.get_max_packet_size (-4) = Except.error (PyError.libusbError (-4))
    ∧ LibusbDevice.get_max_iso_packet_size (-4) = Except.error (PyError.libusbError (-4)) := by
  decide

/-! ### C2 -/

/-- Claim C2 (counterexample): for the unmapped numeric speed code 6 the
code does not return `Unknown` — the `Enum` value lookup raises
`ValueError`, so `get_device_speed` fails, contradicting the claim that
unmapped codes map to `Unknown` and never fail. -/
theorem C2_counterexample :
    LibusbDevice.get_device_speed 6 = Except.error PyError.valueError
    ∧ LibusbDevice.get_device_speed 6 ≠ Except.ok LibusbDeviceSpeed.UNKNOWN := by
  decide

/-- Claim C2 (amended): `get_device_speed` maps the numeric codes 0..5 to
Unknown, Low, Full, High, Super and SuperPlus respectively, and for every
numeric code outside that set it raises (`ValueError` from the enum
lookup) instead of returning `Unknown`. -/
theorem C2_amended_thm :
    LibusbDevice.get_device_speed 0 = Except.ok LibusbDeviceSpeed.UNKNOWN
    ∧ LibusbDevice.get_device_speed 1 = Except.ok LibusbDeviceSpeed.LOW
    ∧ LibusbDevice.get_device_speed 2 = Except.ok LibusbDeviceSpeed.FULL
    ∧ LibusbDevice.get_device_speed 3 = Except.ok LibusbDeviceSpeed.HIGH
    ∧ LibusbDevice.get_device_speed 4 = Except.ok LibusbDeviceSpeed.SUPER
    ∧ LibusbDevice.get_device_speed 5 = Except.ok LibusbDeviceSpeed.SUPER_PLUS
    ∧ ∀ code : Int, (code < 0 ∨ 5 < code) →
        LibusbDevice.get_device_speed code = Except.error PyError.valueError := by
  refine ⟨by decide, by decide, by decide, by decide, by decide, by decide, ?_⟩
  intro code hc
  unfold LibusbDevice.get_device_speed LibusbDeviceSpeed.ofCode
  split_ifs with h0 h1 h2 h3 h4 h5 <;> first | rfl | omega

/-- Claim C2 (witness for the amended theorem at the concrete code 6). -/
theorem C2_amended_witness :
    LibusbDevice.get_device_speed 6 = Except.error PyError.valueError :=
  C2_amended_thm.2.2.2.2.2.2 6 (by decide)

/-! ### C3 -/

/-- Claim C3 (code_bug evaluation): on an identical successful
host-controller result (status 0, same filled config struct),
`get_active_config_descriptor` builds the full tree, while
`get_config_descriptor` passes the dereferenced struct `c_config[0]` to
`LibusbConfigurationDescriptor`, whose first access `descriptor[0]`
raises `TypeError` — the two methods do not behave identically, and the
indexed variant never returns the tree its docstring promises.  On a
failed call (status -5, `LIBUSB_ERROR_NOT_FOUND`) both raise the mapped
error as the claim says. -/
theorem C3_eval :
    LibusbDevice.get_active_config_descriptor 0 minimalCfg =
      Except.ok (LibusbConfigurationDescriptor.build minimalCfg)
    ∧ LibusbDevice.get_config_descriptor 0 minimalCfg = Except.error PyError.typeError
    ∧ LibusbDevice.get_active_config_descriptor (-5) minimalCfg =
        Except.error (PyError.libusbError (-5))
    ∧ LibusbDevice.get_config_descriptor (-5) minimalCfg =
        Except.error (PyError.libusbError (-5)) := by
  refine ⟨rfl, by decide, by decide, by decide⟩

/-! ### C4 -/

/-- Claim C4 (code_bug evaluation): `LibusbContext.get_device_list`
performs no status check on the value `libusb_get_device_list` returned.
With the error status -1 (`LIBUSB_ERROR_IO`) it does not raise: it returns
a `LibusbDeviceList` whose length is the negative error code -1 and whose
snapshot is empty — the failure is silently swallowed, contradicting the
claim that enumeration failures are propagated and that a returned list
has the non-negative enumerated count as its length. -/
theorem C4_eval :
    LibusbContext.get_device_list [] (-1) =
      Except.ok { _devices := [], _device_nbr := -1, _list := [] }
    ∧ LibusbDeviceList.len { _devices := [], _device_nbr := -1, _list := [] } = -1 := by
  decide

/-! ### C5 -/

/-- A config struct whose `bNumInterfaces` (1) overstates the interfaces
actually present (the interface array is empty): the truncation case the
claim is about. -/
def truncatedCfg : config_descriptor :=
  { bLength := 9, bDescriptorType := 2, wTotalLength := 18, bNumInterfaces := 1,
    bConfigurationValue := 1, iConfiguration := 0, bmAttributes := 128, MaxPower := 50,
    interface := [], extra := [], extra_length := 0 }

/-- Claim C5 (counterexample): building the tree from a config whose
`bNumInterfaces` disagrees with the descriptors actually present does NOT
fail with a `TruncatedDescriptor` error — it does not fail at all.  The
build succeeds, reading past the end of the interface array (ctypes does
no bounds check; the junk memory read is modelled by `junkInterface`), and
returns a tree with one fabricated interface.  No `TruncatedDescriptor`
error kind exists anywhere in the code. -/
theorem C5_counterexample :
    LibusbConfigurationDescriptor.init (ConfigArg.ptr truncatedCfg) =
      Except.ok
        { _descriptor := truncatedCfg, _bLength := 9, _bDescriptorType := 2,
          _wTotalLength := 18, _bNumInterfaces := 1, _bConfigurationValue := 1,
          _iConfiguration := 0, _bmAttributes := 128, _MaxPower := 50,
          _interface := [{ _altsetting := [] }], _extra := [] } := by
  decide

/-- Claim C5 (amended): tree building performs no count-versus-buffer
validation at all.  Given a pointer it always succeeds, trusting
`bNumInterfaces`, `num_altsetting` and `bNumEndpoints` and indexing the
underlying arrays unconditionally (out-of-range indexes read the memory
that happens to follow, never raising), and the error type has no
`TruncatedDescriptor` kind: every `LibusbException` message is one of the
thirteen host-controller status messages of exceptions.py. -/
theorem C5_amended_thm :
    (∀ s : config_descriptor,
      LibusbConfigurationDescriptor.init (ConfigArg.ptr s) =
        Except.ok (LibusbConfigurationDescriptor.build s))
    ∧ ∀ code : Int,
        LibusbException.message code = "(" ++ toString code ++ ") IO Error"
        ∨ LibusbException.message code = "(" ++ toString code ++ ") Invalid parameter"
        ∨ LibusbException.message code = "(" ++ toString code ++ ") Access denied (insufficient permissions)"
        ∨ LibusbException.message code = "(" ++ toString code ++ ") No such device (it may have been disconnected)"
        ∨ LibusbException.message code = "(" ++ toString code ++ ") Entity not found"
        ∨ LibusbException.message code = "(" ++ toString code ++ ") Resource busy"
        ∨ LibusbException.message code = "(" ++ toString code ++ ") Operation timed out"
        ∨ LibusbException.message code = "(" ++ toString code ++ ") Overflow"
        ∨ LibusbException.message code = "(" ++ toString code ++ ") Pipe error"
        ∨ LibusbException.message code = "(" ++ toString code ++ ") System call interrupted (perhaps due to signal)"
        ∨ LibusbException.message code = "(" ++ toString code ++ ") Insufficient memory"
        ∨ LibusbException.message code = "(" ++ toString code ++ ") Operation not supported or unimplemented on this platform"
        ∨ LibusbException.message code = "(" ++ toString code ++ ") Other error" := by
  refine ⟨fun s => rfl, fun code => ?_⟩
  by_cases h1 : code = -1
  · subst h1; exact Or.inl rfl
  by_cases h2 : code = -2
  · subst h2; exact Or.inr (Or.inl rfl)
  by_cases h3 : code = -3
  · subst h3; exact Or.inr (Or.inr (Or.inl rfl))
  by_cases h4 : code = -4
  · subst h4; exact Or.inr (Or.inr (Or.inr (Or.inl rfl)))
  by_cases h5 : code = -5
  · subst h5; exact Or.inr (Or.inr (Or.inr (Or.inr (Or.inl rfl))))
  by_cases h6 : code = -6
  · subst h6; exact Or.inr (Or.inr (Or.inr (Or.inr (Or.inr (Or.inl rfl)))))
  by_cases h7 : code = -7
  · subst h7; exact Or.inr (Or.inr (Or.inr (Or.inr (Or.inr (Or.inr (Or.inl rfl))))))
  by_cases h8 : code = -8
  · subst h8
    exact Or.inr (Or.inr (Or.inr (Or.inr (Or.inr (Or.inr (Or.inr (Or.inl rfl)))))))
  by_cases h9 : code = -9
  · subst h9
    exact Or.inr (Or.inr (Or.inr (Or.inr (Or.inr (Or.inr (Or.inr (Or.inr (Or.inl rfl))))))))
  by_cases h10 : code = -10
  · subst h10
    exact Or.inr (Or.inr (Or.inr (Or.inr (Or.inr (Or.inr (Or.inr (Or.inr (Or.inr
      (Or.inl rfl)))))))))
  by_cases h11 : code = -11
  · subst h11
    exact Or.inr (Or.inr (Or.inr (Or.inr (Or.inr (Or.inr (Or.inr (Or.inr (Or.inr
      (Or.inr (Or.inl rfl))))))))))
  by_cases h12 : code = -12
  · subst h12
    exact Or.inr (Or.inr (Or.inr (Or.inr (Or.inr (Or.inr (Or.inr (Or.inr (Or.inr
      (Or.inr (Or.inr (Or.inl rfl)))))))))))
  have hm : LibusbException.message code = "(" ++ toString code ++ ") Other error" := by
    unfold LibusbException.message
    rw [if_neg h1, if_neg h2, if_neg h3, if_neg h4, if_neg h5, if_neg h6, if_neg h7,
      if_neg h8, if_neg h9, if_neg h10, if_neg h11, if_neg h12]
  exact Or.inr (Or.inr (Or.inr (Or.inr (Or.inr (Or.inr (Or.inr (Or.inr (Or.inr
    (Or.inr (Or.inr (Or.inr hm)))))))))))

/-! ### C6 -/

/-- The raw bytes of a SuperSpeed endpoint companion descriptor
(bLength 6, type 0x30, bMaxBurst 2, bmAttributes 0, wBytesPerInterval
1024), exactly as they would follow an endpoint descriptor in the buffer. -/
def ssCompanionBytes : List Nat := [6, 48, 2, 0, 0, 4]

/-- Endpoint A of the `[endpointA][ssCompanion][endpointB]` buffer: the
collaborator parses such a buffer by storing the companion bytes that
follow endpoint A as endpoint A extra bytes. -/
def epA : endpoint_descriptor :=
  { bLength := 7, bDescriptorType := 5, bEndpointAddress := 129, bmAttributes := 2,
    wMaxPacketSize := 1024, bInterval := 0, bRefresh := 0, bSynchAddress := 0,
    extra := ssCompanionBytes, extra_length := 6 }

/-- Endpoint B of the same buffer: nothing follows it, so its extra run is
empty. -/
def epB : endpoint_descriptor :=
  { bLength := 7, bDescriptorType := 5, bEndpointAddress := 2, bmAttributes := 2,
    wMaxPacketSize := 512, bInterval := 0, bRefresh := 0, bSynchAddress := 0,
    extra := [], extra_length := 0 }

/-- The interface struct holding the `[endpointA][ssCompanion][endpointB]`
region. -/
def ssIface : interface_descriptor :=
  { bLength := 9, bDescriptorType := 4, bInterfaceNumber := 0, bAlternateSetting := 0,
    bNumEndpoints := 2, bInterfaceClass := 255, bInterfaceSubClass := 0,
    bInterfaceProtocol := 0, iInterface := 0, endpoint := [epA, epB], extra := [],
    extra_length := 0 }

/-- Claim C6 (counterexample): decoding the `[endpointA][ssCompanion][endpointB]`
region attaches the companion to NEITHER endpoint: the tree builder never
recognizes the companion type tag and never constructs a
`LibusbSsEndpointCompanionDescriptor` (that class exists but is not used
by the build), so the set of companion records attached to each built
endpoint is empty — in particular it is not attached to endpointA as the
claim states.  The companion survives only as undecoded raw bytes in the
endpointA extra run. -/
theorem C6_counterexample :
    (LibusbInterfaceDescriptor.build ssIface)._endpoint.map
        LibusbEndpointDescriptor.companions = [[], []]
    ∧ (LibusbInterfaceDescriptor.build ssIface)._endpoint.map
        LibusbEndpointDescriptor._extra = [ssCompanionBytes, []] := by
  decide

/-- Claim C6 (amended): the tree builder never decodes or attaches
SuperSpeed companion descriptors — every endpoint of every built
interface descriptor carries no companion record, and the bytes following
the fixed fields of an endpoint (where a companion would sit) are
preserved undecoded in the extra run of that endpoint. -/
theorem C6_amended_thm :
    (∀ d : interface_descriptor,
      ∀ e ∈ (LibusbInterfaceDescriptor.build d)._endpoint,
        LibusbEndpointDescriptor.companions e = [])
    ∧ ∀ src : endpoint_descriptor,
        (LibusbEndpointDescriptor.build src)._extra = src.extra.take src.extra_length := by
  exact ⟨fun d e _ => rfl, fun src => rfl⟩

/-- Claim C6 (witness for the amended theorem at the concrete endpoint A
of the `[endpointA][ssCompanion][endpointB]` interface). -/
theorem C6_amended_witness :
    LibusbEndpointDescriptor.companions (LibusbEndpointDescriptor.build epA) = [] :=
  C6_amended_thm.1 ssIface (LibusbEndpointDescriptor.build epA) (by decide)

/-! ### C7 -/

/-- The number of `libusb_ref_device` calls in a call trace. -/
def countRef (calls : List HostCall) : Nat :=
  calls.countP (fun c => match c with | HostCall.refDevice _ => true | _ => false)

/-- The number of `libusb_unref_device` calls in a call trace. -/
def countUnref (calls : List HostCall) : Nat :=
  calls.countP (fun c => match c with | HostCall.unrefDevice _ => true | _ => false)

/-- The number of `libusb_free_device_list` calls in a call trace. -/
def countFreeList (calls : List HostCall) : Nat :=
  calls.countP (fun c => match c with | HostCall.freeDeviceList _ _ => true | _ => false)

/-- Claim C7: releasing a `LibusbDeviceList` issues exactly one
`libusb_free_device_list` call with unref flag 0 — it frees only the
enumeration array and performs no per-handle reference-count decrement
(and no increment).  Constructing a `LibusbDevice` (alone or during list
construction) issues no host-controller call at all, so no refcount
increment; destroying a `LibusbDevice` issues exactly one
`libusb_unref_device` on its underlying reference. -/
theorem C7_thm :
    ∀ (d : device) (self : LibusbDevice) (lst : LibusbDeviceList)
      (devices : List device) (n : Int),
      (LibusbDevice.init d).fst = { _device := d }
      ∧ (LibusbDevice.init d).snd = []
      ∧ LibusbDevice.del self = [HostCall.unrefDevice self._device]
      ∧ countUnref (LibusbDevice.del self) = 1
      ∧ LibusbDeviceList.del lst = [HostCall.freeDeviceList lst._devices 0]
      ∧ countFreeList (LibusbDeviceList.del lst) = 1
      ∧ countUnref (LibusbDeviceList.del lst) = 0
      ∧ countRef (LibusbDeviceList.del lst) = 0
      ∧ (LibusbDeviceList.init devices n).snd = [] := by
  intro d self lst devices n
  refine ⟨rfl, rfl, rfl, rfl, rfl, rfl, rfl, rfl, ?_⟩
  simp [LibusbDeviceList.init, LibusbDevice.init]

/-! ### C8 -/

/-- Claim C8: for every configuration whose underlying arrays actually
hold what the count fields promise and whose extra runs are as long as
their length fields say (what a successfully decoded configuration from
the collaborator provides), the built tree has exactly `bNumInterfaces`
interfaces in array order, each interface exactly `num_altsetting`
alternate settings in order, each alternate setting exactly
`bNumEndpoints` endpoints in order, and the extra bytes of the
configuration, of every alternate setting and of every endpoint equal the
trailing bytes of the source record byte for byte — for every trailing
length, 0 through 255 and beyond. -/
theorem C8_thm (cfg : config_descriptor)
    (hI : cfg.interface.length = cfg.bNumInterfaces)
    (hA : ∀ itf ∈ cfg.interface, itf.altsetting.length = itf.num_altsetting.toNat)
    (hE : ∀ itf ∈ cfg.interface, ∀ alt ∈ itf.altsetting,
      alt.endpoint.length = alt.bNumEndpoints)
    (hxC : cfg.extra_length = cfg.extra.length)
    (hxA : ∀ itf ∈ cfg.interface, ∀ alt ∈ itf.altsetting,
      alt.extra_length = alt.extra.length)
    (hxE : ∀ itf ∈ cfg.interface, ∀ alt ∈ itf.altsetting, ∀ ep ∈ alt.endpoint,
      ep.extra_length = ep.extra.length) :
    ((LibusbConfigurationDescriptor.build cfg)._interface
        = cfg.interface.map LibusbInterface.build)
    ∧ ((LibusbConfigurationDescriptor.build cfg)._interface.length = cfg.bNumInterfaces)
    ∧ ((LibusbConfigurationDescriptor.build cfg)._extra = cfg.extra)
    ∧ ∀ itf ∈ cfg.interface,
        ((LibusbInterface.build itf)._altsetting
            = itf.altsetting.map LibusbInterfaceDescriptor.build)
        ∧ ((LibusbInterface.build itf)._altsetting.length = itf.num_altsetting.toNat)
        ∧ ∀ alt ∈ itf.altsetting,
            ((LibusbInterfaceDescriptor.build alt)._endpoint
                = alt.endpoint.map LibusbEndpointDescriptor.build)
            ∧ ((LibusbInterfaceDescriptor.build alt)._endpoint.length = alt.bNumEndpoints)
            ∧ ((LibusbInterfaceDescriptor.build alt)._extra = alt.extra)
            ∧ ∀ ep ∈ alt.endpoint,
                (LibusbEndpointDescriptor.build ep)._extra = ep.extra := by
  have hint : (LibusbConfigurationDescriptor.build cfg)._interface
      = cfg.interface.map LibusbInterface.build :=
    range_getD_map LibusbInterface.build junkInterface cfg.interface cfg.bNumInterfaces hI
  refine ⟨hint, ?_, ?_, ?_⟩
  · rw [hint, List.length_map, hI]
  · show cfg.extra.take cfg.extra_length = cfg.extra
    rw [hxC, List.take_length]
  · intro itf hitf
    have halt : (LibusbInterface.build itf)._altsetting
        = itf.altsetting.map LibusbInterfaceDescriptor.build :=
      range_getD_map LibusbInterfaceDescriptor.build junkInterfaceDesc itf.altsetting
        itf.num_altsetting.toNat (hA itf hitf)
    refine ⟨halt, by rw [halt, List.length_map, hA itf hitf], ?_⟩
    intro alt hal
    have hep : (LibusbInterfaceDescriptor.build alt)._endpoint
        = alt.endpoint.map LibusbEndpointDescriptor.build :=
      range_getD_map LibusbEndpointDescriptor.build junkEndpoint alt.endpoint
        alt.bNumEndpoints (hE itf hitf alt hal)
    refine ⟨hep, by rw [hep, List.length_map, hE itf hitf alt hal], ?_, ?_⟩
    · show alt.extra.take alt.extra_length = alt.extra
      rw [hxA itf hitf alt hal, List.take_length]
    · intro ep hepm
      show ep.extra.take ep.extra_length = ep.extra
      rw [hxE itf hitf alt hal ep hepm, List.take_length]

/-- A filled endpoint struct with a two-byte extra run, for the C8
witness. -/
def epW : endpoint_descriptor :=
  { bLength := 7, bDescriptorType := 5, bEndpointAddress := 1, bmAttributes := 2,
    wMaxPacketSize := 64, bInterval := 10, bRefresh := 0, bSynchAddress := 0,
    extra := [7, 7], extra_length := 2 }

/-- A filled alternate-setting struct with one endpoint and a one-byte
extra run, for the C8 witness. -/
def altW : interface_descriptor :=
  { bLength := 9, bDescriptorType := 4, bInterfaceNumber := 0, bAlternateSetting := 0,
    bNumEndpoints := 1, bInterfaceClass := 3, bInterfaceSubClass := 0,
    bInterfaceProtocol := 0, iInterface := 0, endpoint := [epW], extra := [9],
    extra_length := 1 }

/-- A filled interface struct with one alternate setting, for the C8
witness. -/
def itfW : libusb_interface :=
  { altsetting := [altW], num_altsetting := 1 }

/-- A filled config struct with one interface and a three-byte extra run,
for the C8 witness. -/
def cfgW : config_descriptor :=
  { bLength := 9, bDescriptorType := 2, wTotalLength := 34, bNumInterfaces := 1,
    bConfigurationValue := 1, iConfiguration := 0, bmAttributes := 128, MaxPower := 50,
    interface := [itfW], extra := [1, 2, 3], extra_length := 3 }

/-- Claim C8 (witness at the concrete configuration `cfgW`). -/
theorem C8_witness :
    (LibusbConfigurationDescriptor.build cfgW)._interface.length = cfgW.bNumInterfaces
    ∧ (LibusbConfigurationDescriptor.build cfgW)._extra = cfgW.extra := by
  have h := C8_thm cfgW (by decide) (by decide) (by decide) (by decide) (by decide) (by decide)
  exact ⟨h.2.1, h.2.2.1⟩

/-! ### C9 -/

/-- A filled device-descriptor struct for the C9 witness. -/
def dd0 : device_descriptor :=
  { bLength := 18, bDescriptorType := 1, bcdUSB := 512, bDeviceClass := 0,
    bDeviceSubClass := 0, bDeviceProtocol := 0, bMaxPacketSize0 := 64,
    idVendor := 1234, idProduct := 5678, bcdDevice := 256, iManufacturer := 1,
    iProduct := 2, iSerialNumber := 3, bNumConfigurations := 1 }

/-- A filled SuperSpeed companion struct for the C9 witness. -/
def ss0 : ss_endpoint_companion_descriptor :=
  { bLength := 6, bDescriptorType := 48, bMaxBurst := 2, bmAttributes := 0,
    wBytesPerInterval := 1024 }

/-- Claim C9 (counterexample): the field name "_class__" is not one the
type declares, yet the lookup does not raise: prepending the underscore
yields "__class__", which `getattr` resolves at class level on every
object, so `descriptor["_class__"]` returns the class object instead of
raising `AttributeError` — the undeclared-field half of the claim is
false on the code (likewise "_str__", "_init__", "_getitem__",
"_dict__"). -/
theorem C9_counterexample :
    ("_class__" ∉ deviceDescriptorFields)
    ∧ LibusbDescriptor.getitem (LibusbDeviceDescriptor.attrs (LibusbDeviceDescriptor.build dd0))
        knownClassAttrs "_class__" = Except.ok (PyValue.classAttr "__class__")
    ∧ LibusbDescriptor.getitem (LibusbDeviceDescriptor.attrs (LibusbDeviceDescriptor.build dd0))
        knownClassAttrs "_class__" ≠ Except.error PyError.attributeError := by
  decide

/-- Claim C9 (amended): for every concrete descriptor type and every field
name the type declares (the attributes its `__init__` stores, addressed
without their underscore), `descriptor[field]` succeeds and returns
exactly the value stored at that field, for every source record and any
set of class-level attribute names.  An undeclared field name raises
`AttributeError` — a programming-error failure distinct from the
`LibusbException` I/O taxonomy — only when its underscored form also
resolves no class-level attribute; an undeclared name whose underscored
form hits a class attribute (such as "_class__" for `__class__` or
"_str__" for `__str__`) instead returns that class-level object. -/
theorem C9_thm (classAttrs : List String) (d : device_descriptor)
    (s : ss_endpoint_companion_descriptor) (e : endpoint_descriptor)
    (a : interface_descriptor) (c : config_descriptor) :
    ((LibusbDescriptor.getitem (LibusbDeviceDescriptor.attrs (LibusbDeviceDescriptor.build d)) classAttrs "descriptor" = Except.ok (PyValue.devDescRef d)
      ∧ LibusbDescriptor.getitem (LibusbDeviceDescriptor.attrs (LibusbDeviceDescriptor.build d)) classAttrs "bLength" = Except.ok (PyValue.int d.bLength)
      ∧ LibusbDescriptor.getitem (LibusbDeviceDescriptor.attrs (LibusbDeviceDescriptor.build d)) classAttrs "bDescriptorType" = Except.ok (PyValue.int d.bDescriptorType)
      ∧ LibusbDescriptor.getitem (LibusbDeviceDescriptor.attrs (LibusbDeviceDescriptor.build d)) classAttrs "bcdUSB" = Except.ok (PyValue.int d.bcdUSB)
      ∧ LibusbDescriptor.getitem (LibusbDeviceDescriptor.attrs (LibusbDeviceDescriptor.build d)) classAttrs "bDeviceClass" = Except.ok (PyValue.int d.bDeviceClass)
      ∧ LibusbDescriptor.getitem (LibusbDeviceDescriptor.attrs (LibusbDeviceDescriptor.build d)) classAttrs "bDeviceSubClass" = Except.ok (PyValue.int d.bDeviceSubClass)
      ∧ LibusbDescriptor.getitem (LibusbDeviceDescriptor.attrs (LibusbDeviceDescriptor.build d)) classAttrs "bDeviceProtocol" = Except.ok (PyValue.int d.bDeviceProtocol)
      ∧ LibusbDescriptor.getitem (LibusbDeviceDescriptor.attrs (LibusbDeviceDescriptor.build d)) classAttrs "bMaxPacketSize0" = Except.ok (PyValue.int d.bMaxPacketSize0)
      ∧ LibusbDescriptor.getitem (LibusbDeviceDescriptor.attrs (LibusbDeviceDescriptor.build d)) classAttrs "idVendor" = Except.ok (PyValue.int d.idVendor)
      ∧ LibusbDescriptor.getitem (LibusbDeviceDescriptor.attrs (LibusbDeviceDescriptor.build d)) classAttrs "idProduct" = Except.ok (PyValue.int d.idProduct)
      ∧ LibusbDescriptor.getitem (LibusbDeviceDescriptor.attrs (LibusbDeviceDescriptor.build d)) classAttrs "bcdDevice" = Except.ok (PyValue.int d.bcdDevice)
      ∧ LibusbDescriptor.getitem (LibusbDeviceDescriptor.attrs (LibusbDeviceDescriptor.build d)) classAttrs "iManufacturer" = Except.ok (PyValue.int d.iManufacturer)
      ∧ LibusbDescriptor.getitem (LibusbDeviceDescriptor.attrs (LibusbDeviceDescriptor.build d)) classAttrs "iProduct" = Except.ok (PyValue.int d.iProduct)
      ∧ LibusbDescriptor.getitem (LibusbDeviceDescriptor.attrs (LibusbDeviceDescriptor.build d)) classAttrs "iSerialNumber" = Except.ok (PyValue.int d.iSerialNumber)
      ∧ LibusbDescriptor.getitem (LibusbDeviceDescriptor.attrs (LibusbDeviceDescriptor.build d)) classAttrs "bNumConfigurations" = Except.ok (PyValue.int d.bNumConfigurations))
     ∧ (∀ f, f ∉ deviceDescriptorFields → "_" ++ f ∉ classAttrs →
        LibusbDescriptor.getitem (LibusbDeviceDescriptor.attrs (LibusbDeviceDescriptor.build d)) classAttrs f = Except.error PyError.attributeError)
     ∧ ∀ f, f ∉ deviceDescriptorFields → "_" ++ f ∈ classAttrs →
        LibusbDescriptor.getitem (LibusbDeviceDescriptor.attrs (LibusbDeviceDescriptor.build d)) classAttrs f = Except.ok (PyValue.classAttr ("_" ++ f)))
    ∧ ((LibusbDescriptor.getitem (LibusbSsEndpointCompanionDescriptor.attrs (LibusbSsEndpointCompanionDescriptor.build s)) classAttrs "descriptor" = Except.ok (PyValue.ssDescRef s)
      ∧ LibusbDescriptor.getitem (LibusbSsEndpointCompanionDescriptor.attrs (LibusbSsEndpointCompanionDescriptor.build s)) classAttrs "bLength" = Except.ok (PyValue.int s.bLength)
      ∧ LibusbDescriptor.getitem (LibusbSsEndpointCompanionDescriptor.attrs (LibusbSsEndpointCompanionDescriptor.build s)) classAttrs "bDescriptorType" = Except.ok (PyValue.int s.bDescriptorType)
      ∧ LibusbDescriptor.getitem (LibusbSsEndpointCompanionDescriptor.attrs (LibusbSsEndpointCompanionDescriptor.build s)) classAttrs "bMaxBurst" = Except.ok (PyValue.int s.bMaxBurst)
      ∧ LibusbDescriptor.getitem (LibusbSsEndpointCompanionDescriptor.attrs (LibusbSsEndpointCompanionDescriptor.build s)) classAttrs "bmAttributes" = Except.ok (PyValue.int s.bmAttributes)
      ∧ LibusbDescriptor.getitem (LibusbSsEndpointCompanionDescriptor.attrs (LibusbSsEndpointCompanionDescriptor.build s)) classAttrs "wBytesPerInterval" = Except.ok (PyValue.int s.wBytesPerInterval))
     ∧ (∀ f, f ∉ ssCompanionFields → "_" ++ f ∉ classAttrs →
        LibusbDescriptor.getitem (LibusbSsEndpointCompanionDescriptor.attrs (LibusbSsEndpointCompanionDescriptor.build s)) classAttrs f = Except.error PyError.attributeError)
     ∧ ∀ f, f ∉ ssCompanionFields → "_" ++ f ∈ classAttrs →
        LibusbDescriptor.getitem (LibusbSsEndpointCompanionDescriptor.attrs (LibusbSsEndpointCompanionDescriptor.build s)) classAttrs f = Except.ok (PyValue.classAttr ("_" ++ f)))
    ∧ ((LibusbDescriptor.getitem (LibusbEndpointDescriptor.attrs (LibusbEndpointDescriptor.build e)) classAttrs "descriptor" = Except.ok (PyValue.epDescRef e)
      ∧ LibusbDescriptor.getitem (LibusbEndpointDescriptor.attrs (LibusbEndpointDescriptor.build e)) classAttrs "bLength" = Except.ok (PyValue.int e.bLength)
      ∧ LibusbDescriptor.getitem (LibusbEndpointDescriptor.attrs (LibusbEndpointDescriptor.build e)) classAttrs "bDescriptorType" = Except.ok (PyValue.int e.bDescriptorType)
      ∧ LibusbDescriptor.getitem (LibusbEndpointDescriptor.attrs (LibusbEndpointDescriptor.build e)) classAttrs "bEndpointAddress" = Except.ok (PyValue.int e.bEndpointAddress)
      ∧ LibusbDescriptor.getitem (LibusbEndpointDescriptor.attrs (LibusbEndpointDescriptor.build e)) classAttrs "bmAttributes" = Except.ok (PyValue.int e.bmAttributes)
      ∧ LibusbDescriptor.getitem (LibusbEndpointDescriptor.attrs (LibusbEndpointDescriptor.build e)) classAttrs "wMaxPacketSize" = Except.ok (PyValue.int e.wMaxPacketSize)
      ∧ LibusbDescriptor.getitem (LibusbEndpointDescriptor.attrs (LibusbEndpointDescriptor.build e)) classAttrs "bInterval" = Except.ok (PyValue.int e.bInterval)
      ∧ LibusbDescriptor.getitem (LibusbEndpointDescriptor.attrs (LibusbEndpointDescriptor.build e)) classAttrs "bRefresh" = Except.ok (PyValue.int e.bRefresh)
      ∧ LibusbDescriptor.getitem (LibusbEndpointDescriptor.attrs (LibusbEndpointDescriptor.build e)) classAttrs "bSynchAddress" = Except.ok (PyValue.int e.bSynchAddress)
      ∧ LibusbDescriptor.getitem (LibusbEndpointDescriptor.attrs (LibusbEndpointDescriptor.build e)) classAttrs "extra" = Except.ok (PyValue.bytes (e.extra.take e.extra_length)))
     ∧ (∀ f, f ∉ endpointFields → "_" ++ f ∉ classAttrs →
        LibusbDescriptor.getitem (LibusbEndpointDescriptor.attrs (LibusbEndpointDescriptor.build e)) classAttrs f = Except.error PyError.attributeError)
     ∧ ∀ f, f ∉ endpointFields → "_" ++ f ∈ classAttrs →
        LibusbDescriptor.getitem (LibusbEndpointDescriptor.attrs (LibusbEndpointDescriptor.build e)) classAttrs f = Except.ok (PyValue.classAttr ("_" ++ f)))
    ∧ ((LibusbDescriptor.getitem (LibusbInterfaceDescriptor.attrs (LibusbInterfaceDescriptor.build a)) classAttrs "descriptor" = Except.ok (PyValue.itfDescRef a)
      ∧ LibusbDescriptor.getitem (LibusbInterfaceDescriptor.attrs (LibusbInterfaceDescriptor.build a)) classAttrs "bLength" = Except.ok (PyValue.int a.bLength)
      ∧ LibusbDescriptor.getitem (LibusbInterfaceDescriptor.attrs (LibusbInterfaceDescriptor.build a)) classAttrs "bDescriptorType" = Except.ok (PyValue.int a.bDescriptorType)
      ∧ LibusbDescriptor.getitem (LibusbInterfaceDescriptor.attrs (LibusbInterfaceDescriptor.build a)) classAttrs "bInterfaceNumber" = Except.ok (PyValue.int a.bInterfaceNumber)
      ∧ LibusbDescriptor.getitem (LibusbInterfaceDescriptor.attrs (LibusbInterfaceDescriptor.build a)) classAttrs "bAlternateSetting" = Except.ok (PyValue.int a.bAlternateSetting)
      ∧ LibusbDescriptor.getitem (LibusbInterfaceDescriptor.attrs (LibusbInterfaceDescriptor.build a)) classAttrs "bNumEndpoints" = Except.ok (PyValue.int a.bNumEndpoints)
      ∧ LibusbDescriptor.getitem (LibusbInterfaceDescriptor.attrs (LibusbInterfaceDescriptor.build a)) classAttrs "bInterfaceClass" = Except.ok (PyValue.int a.bInterfaceClass)
      ∧ LibusbDescriptor.getitem (LibusbInterfaceDescriptor.attrs (LibusbInterfaceDescriptor.build a)) classAttrs "bInterfaceSubClass" = Except.ok (PyValue.int a.bInterfaceSubClass)
      ∧ LibusbDescriptor.getitem (LibusbInterfaceDescriptor.attrs (LibusbInterfaceDescriptor.build a)) classAttrs "bInterfaceProtocol" = Except.ok (PyValue.int a.bInterfaceProtocol)
      ∧ LibusbDescriptor.getitem (LibusbInterfaceDescriptor.attrs (LibusbInterfaceDescriptor.build a)) classAttrs "iInterface" = Except.ok (PyValue.int a.iInterface)
      ∧ LibusbDescriptor.getitem (LibusbInterfaceDescriptor.attrs (LibusbInterfaceDescriptor.build a)) classAttrs "endpoint" = Except.ok (PyValue.endpoints (LibusbInterfaceDescriptor.build a)._endpoint)
      ∧ LibusbDescriptor.getitem (LibusbInterfaceDescriptor.attrs (LibusbInterfaceDescriptor.build a)) classAttrs "extra" = Except.ok (PyValue.bytes (a.extra.take a.extra_length)))
     ∧ (∀ f, f ∉ interfaceDescriptorFields → "_" ++ f ∉ classAttrs →
        LibusbDescriptor.getitem (LibusbInterfaceDescriptor.attrs (LibusbInterfaceDescriptor.build a)) classAttrs f = Except.error PyError.attributeError)
     ∧ ∀ f, f ∉ interfaceDescriptorFields → "_" ++ f ∈ classAttrs →
        LibusbDescriptor.getitem (LibusbInterfaceDescriptor.attrs (LibusbInterfaceDescriptor.build a)) classAttrs f = Except.ok (PyValue.classAttr ("_" ++ f)))
    ∧ ((LibusbDescriptor.getitem (LibusbConfigurationDescriptor.attrs (LibusbConfigurationDescriptor.build c)) classAttrs "descriptor" = Except.ok (PyValue.cfgDescRef c)
      ∧ LibusbDescriptor.getitem (LibusbConfigurationDescriptor.attrs (LibusbConfigurationDescriptor.build c)) classAttrs "bLength" = Except.ok (PyValue.int c.bLength)
      ∧ LibusbDescriptor.getitem (LibusbConfigurationDescriptor.attrs (LibusbConfigurationDescriptor.build c)) classAttrs "bDescriptorType" = Except.ok (PyValue.int c.bDescriptorType)
      ∧ LibusbDescriptor.getitem (LibusbConfigurationDescriptor.attrs (LibusbConfigurationDescriptor.build c)) classAttrs "wTotalLength" = Except.ok (PyValue.int c.wTotalLength)
      ∧ LibusbDescriptor.getitem (LibusbConfigurationDescriptor.attrs (LibusbConfigurationDescriptor.build c)) classAttrs "bNumInterfaces" = Except.ok (PyValue.int c.bNumInterfaces)
      ∧ LibusbDescriptor.getitem (LibusbConfigurationDescriptor.attrs (LibusbConfigurationDescriptor.build c)) classAttrs "bConfigurationValue" = Except.ok (PyValue.int c.bConfigurationValue)
      ∧ LibusbDescriptor.getitem (LibusbConfigurationDescriptor.attrs (LibusbConfigurationDescriptor.build c)) classAttrs "iConfiguration" = Except.ok (PyValue.int c.iConfiguration)
      ∧ LibusbDescriptor.getitem (LibusbConfigurationDescriptor.attrs (LibusbConfigurationDescriptor.build c)) classAttrs "bmAttributes" = Except.ok (PyValue.int c.bmAttributes)
      ∧ LibusbDescriptor.getitem (LibusbConfigurationDescriptor.attrs (LibusbConfigurationDescriptor.build c)) classAttrs "MaxPower" = Except.ok (PyValue.int c.MaxPower)
      ∧ LibusbDescriptor.getitem (LibusbConfigurationDescriptor.attrs (LibusbConfigurationDescriptor.build c)) classAttrs "interface" = Except.ok (PyValue.interfaces (LibusbConfigurationDescriptor.build c)._interface)
      ∧ LibusbDescriptor.getitem (LibusbConfigurationDescriptor.attrs (LibusbConfigurationDescriptor.build c)) classAttrs "extra" = Except.ok (PyValue.bytes (c.extra.take c.extra_length)))
     ∧ (∀ f, f ∉ configurationFields → "_" ++ f ∉ classAttrs →
        LibusbDescriptor.getitem (LibusbConfigurationDescriptor.attrs (LibusbConfigurationDescriptor.build c)) classAttrs f = Except.error PyError.attributeError)
     ∧ ∀ f, f ∉ configurationFields → "_" ++ f ∈ classAttrs →
        LibusbDescriptor.getitem (LibusbConfigurationDescriptor.attrs (LibusbConfigurationDescriptor.build c)) classAttrs f = Except.ok (PyValue.classAttr ("_" ++ f))) := by
  refine ⟨⟨⟨rfl, rfl, rfl, rfl, rfl, rfl, rfl, rfl, rfl, rfl, rfl, rfl, rfl, rfl, rfl⟩, ?_, ?_⟩,
          ⟨⟨rfl, rfl, rfl, rfl, rfl, rfl⟩, ?_, ?_⟩,
          ⟨⟨rfl, rfl, rfl, rfl, rfl, rfl, rfl, rfl, rfl, rfl⟩, ?_, ?_⟩,
          ⟨⟨rfl, rfl, rfl, rfl, rfl, rfl, rfl, rfl, rfl, rfl, rfl, rfl⟩, ?_, ?_⟩,
          ⟨⟨rfl, rfl, rfl, rfl, rfl, rfl, rfl, rfl, rfl, rfl, rfl⟩, ?_, ?_⟩⟩
  · intro f hf hc
    unfold LibusbDescriptor.getitem pygetattr
    rw [lookup_underscored_none f (LibusbDeviceDescriptor.attrs (LibusbDeviceDescriptor.build d)) deviceDescriptorFields rfl hf]
    exact if_neg hc
  · intro f hf hc
    unfold LibusbDescriptor.getitem pygetattr
    rw [lookup_underscored_none f (LibusbDeviceDescriptor.attrs (LibusbDeviceDescriptor.build d)) deviceDescriptorFields rfl hf]
    exact if_pos hc
  · intro f hf hc
    unfold LibusbDescriptor.getitem pygetattr
    rw [lookup_underscored_none f (LibusbSsEndpointCompanionDescriptor.attrs (LibusbSsEndpointCompanionDescriptor.build s)) ssCompanionFields rfl hf]
    exact if_neg hc
  · intro f hf hc
    unfold LibusbDescriptor.getitem pygetattr
    rw [lookup_underscored_none f (LibusbSsEndpointCompanionDescriptor.attrs (LibusbSsEndpointCompanionDescriptor.build s)) ssCompanionFields rfl hf]
    exact if_pos hc
  · intro f hf hc
    unfold LibusbDescriptor.getitem pygetattr
    rw [lookup_underscored_none f (LibusbEndpointDescriptor.attrs (LibusbEndpointDescriptor.build e)) endpointFields rfl hf]
    exact if_neg hc
  · intro f hf hc
    unfold LibusbDescriptor.getitem pygetattr
    rw [lookup_underscored_none f (LibusbEndpointDescriptor.attrs (LibusbEndpointDescriptor.build e)) endpointFields rfl hf]
    exact if_pos hc
  · intro f hf hc
    unfold LibusbDescriptor.getitem pygetattr
    rw [lookup_underscored_none f (LibusbInterfaceDescriptor.attrs (LibusbInterfaceDescriptor.build a)) interfaceDescriptorFields rfl hf]
    exact if_neg hc
  · intro f hf hc
    unfold LibusbDescriptor.getitem pygetattr
    rw [lookup_underscored_none f (LibusbInterfaceDescriptor.attrs (LibusbInterfaceDescriptor.build a)) interfaceDescriptorFields rfl hf]
    exact if_pos hc
  · intro f hf hc
    unfold LibusbDescriptor.getitem pygetattr
    rw [lookup_underscored_none f (LibusbConfigurationDescriptor.attrs (LibusbConfigurationDescriptor.build c)) configurationFields rfl hf]
    exact if_neg hc
  · intro f hf hc
    unfold LibusbDescriptor.getitem pygetattr
    rw [lookup_underscored_none f (LibusbConfigurationDescriptor.attrs (LibusbConfigurationDescriptor.build c)) configurationFields rfl hf]
    exact if_pos hc


/-- Claim C9 (witness at concrete records: a declared field comes back
with its stored value, and an undeclared field name whose underscored
form is no class attribute raises `AttributeError`). -/
theorem C9_witness :
    ("nonexistent" ∉ deviceDescriptorFields)
    ∧ ("_" ++ "nonexistent" ∉ knownClassAttrs)
    ∧ LibusbDescriptor.getitem (LibusbDeviceDescriptor.attrs (LibusbDeviceDescriptor.build dd0))
        knownClassAttrs "nonexistent" = Except.error PyError.attributeError
    ∧ LibusbDescriptor.getitem (LibusbDeviceDescriptor.attrs (LibusbDeviceDescriptor.build dd0))
        knownClassAttrs "idVendor" = Except.ok (PyValue.int dd0.idVendor) := by
  have h := C9_thm knownClassAttrs dd0 ss0 epA ssIface minimalCfg
  exact ⟨by decide, by decide, h.1.2.1 "nonexistent" (by decide) (by decide),
    h.1.1.2.2.2.2.2.2.2.2.1⟩

/-! ### C10 -/

/-- Driving an iterator that sits at index `i` of its list yields the
remaining elements in order and then reaches `StopIteration`, given
enough fuel. -/
theorem collect_from (l : List LibusbDevice) :
    ∀ (fuel i : Nat), l.length - i < fuel →
      DeviceListIterator.collect { _device_list := l, _len := l.length, _index := i } fuel
        = (l.drop i, true) := by
  intro fuel
  induction fuel with
  | zero => intro i h; exact absurd h (by omega)
  | succ n ih =>
    intro i h
    by_cases hi : i < l.length
    · have hnext : DeviceListIterator.next { _device_list := l, _len := l.length, _index := i }
          = Except.ok (l.getD i junkLibusbDevice,
              { _device_list := l, _len := l.length, _index := i + 1 }) := by
        simp [DeviceListIterator.next, hi]
      have hdrop : l.drop i = l.getD i junkLibusbDevice :: l.drop (i + 1) := by
        rw [List.getD_eq_getElem?_getD, List.getElem?_eq_getElem hi]
        exact List.drop_eq_getElem_cons hi
      have hrec := ih (i + 1) (by omega)
      simp [DeviceListIterator.collect, hnext, hrec, hdrop]
    · have hnext : DeviceListIterator.next { _device_list := l, _len := l.length, _index := i }
          = Except.error PyError.stopIteration := by
        simp [DeviceListIterator.next, hi]
      have hdrop : l.drop i = [] := List.drop_eq_nil_of_le (by omega)
      simp [DeviceListIterator.collect, hnext, hdrop]

/-- Claim C10: every call to `__iter__` returns a fresh iterator (index 0,
over the snapshot `_list` captured at list construction); driving any such
iterator yields exactly the devices of the snapshot in index order and
then reaches `StopIteration`; and for every index `i` below the snapshot
length, indexed access returns the same device the iteration yields at
position `i` — so repeated iterations of the same list yield the same
sequence of handles. -/
theorem C10_thm (dl : LibusbDeviceList) :
    (dl.iter = { _device_list := dl._list, _len := dl._list.length, _index := 0 })
    ∧ (dl.iter.collect (dl._list.length + 1) = (dl._list, true))
    ∧ ∀ i : Nat, i < dl._list.length →
        dl.getitem (i : Int) = Except.ok (dl._list.getD i junkLibusbDevice) := by
  refine ⟨rfl, ?_, ?_⟩
  · have h := collect_from dl._list (dl._list.length + 1) 0 (by omega)
    simpa using h
  · intro i hi
    have hc : (0 : Int) ≤ (i : Int) ∧ (i : Int) < (dl._list.length : Int) := by
      constructor
      · exact_mod_cast Int.ofNat_nonneg i
      · exact_mod_cast hi
    unfold LibusbDeviceList.getitem
    rw [if_pos hc]
    simp

/-- Claim C10 (witness at a concrete two-device list). -/
theorem C10_witness :
    ((LibusbDeviceList.init [5, 6] 2).fst.iter.collect 3
        = ((LibusbDeviceList.init [5, 6] 2).fst._list, true))
    ∧ (LibusbDeviceList.init [5, 6] 2).fst.getitem 0 = Except.ok { _device := 5 } := by
  have h := C10_thm (LibusbDeviceList.init [5, 6] 2).fst
  refine ⟨h.2.1, ?_⟩
  have h0 := h.2.2 0 (by decide)
  exact h0.trans (by decide)

end Libusbpy
